import Mathlib

/-!
Verification of the cart pricing and coupon-redemption logic of the
e-commerce repository.

Two pieces of source code implement the pricing engine:

* `CartRepository` in `packages/database/src/repositories/payment.repository.ts`
  (cart item mutation, promo-code application, `recalculateCartTotals`);
  embedded below in namespace `CartModel`.
* the promotions subgraph resolvers in
  `packages/subgraphs/arrangement/src/resolvers.ts`
  (`Mutation.applyCoupon`, `Mutation.removeCoupon`), which use a separate
  `Coupon` data model (discountType / maxUses / usesCount) and write the
  `discountAmount` / `couponCode` columns of the cart; embedded below in
  namespace `PromoModel`.

Money and quantities are modelled as exact rationals (`Rat`), the single
numeric type of the JavaScript source.  Each repository method that can
`throw` is embedded as a function `State → State × Option Error`: every
`throw e` in the source becomes `(current state, some e)` at exactly the
point in the sequence of database writes where the source throws, so that
"no write happened before the throw" is a provable property of the
embedding and not an assumption.
-/

namespace CartModel

/-- A product variant row (`ProductVariant`): id and price. -/
structure Variant where
  id : String
  price : Rat
deriving DecidableEq, Repr

/-- A product row: id, price, and its variants. -/
structure Product where
  id : String
  price : Rat
  variants : List Variant
deriving DecidableEq, Repr

/-- A `CartItem` row: the captured unit price (`price`) and the stored
line total (`total`) are separate columns, exactly as in the Prisma
schema used by `payment.repository.ts`. -/
structure CartItem where
  id : Nat
  productId : String
  variantId : Option String
  quantity : Rat
  price : Rat
  total : Rat
deriving DecidableEq, Repr

/-- A `PromoCode` row as used by `CartRepository`: a discount value, a
percentage flag and an optional expiry instant. -/
structure PromoCode where
  id : String
  code : String
  discount : Rat
  isPercentage : Bool
  expiresAt : Option Nat
deriving DecidableEq, Repr

/-- A `Cart` row together with its owned `CartItem` rows and the id of the
connected `PromoCode` relation (if any). -/
structure Cart where
  items : List CartItem
  promoCodeId : Option String
  subtotal : Rat
  discount : Rat
  tax : Rat
  shipping : Rat
  total : Rat
deriving DecidableEq, Repr

/-- The state visible to one cart aggregate: the cart itself, the product
catalog, the promo-code table, and the id generator for new cart items. -/
structure St where
  cart : Cart
  products : List Product
  promoCodes : List PromoCode
  nextItemId : Nat
deriving DecidableEq, Repr

/-- Error classes thrown by `CartRepository` methods.  The source throws
plain `Error`s; the message distinguishes only these cases. -/
inductive CartError where
  | notFound
  | couponExpired
deriving DecidableEq, Repr

/-- The cart produced by `createOrUpdateCart`: no items, no promo code,
all monetary fields zero. -/
def newCart : Cart :=
  { items := [], promoCodeId := none,
    subtotal := 0, discount := 0, tax := 0, shipping := 0, total := 0 }

/-- `payment.repository.ts` lines 342-363: fetch the product (including
the variant filtered by id when a variant id is given), throw `NotFound`
when the product or the requested variant is absent, and select the
variant price when a variant id was supplied, the product price
otherwise.  Returns `none` exactly when the source throws. -/
def fetchPrice (products : List Product) (pid : String) (vid : Option String) :
    Option Rat :=
  match products.find? (fun p => p.id == pid) with
  | none => none
  | some product =>
    match vid with
    | some v =>
      match product.variants.find? (fun w => w.id == v) with
      | none => none
      | some variant => some variant.price
    | none => some product.price

/-- The `findFirst` key used by `addItem` (cartId is implicit: the model
is per-cart): same product id and same variant id (`variantId || null`). -/
def itemKeyMatches (pid : String) (vid : Option String) (it : CartItem) : Bool :=
  it.productId == pid && it.variantId == vid

/-- The promo code currently connected to the cart, resolved against the
promo-code table (the `include: { promoCode: true }` of
`recalculateCartTotals`). -/
def lookupPromo (s : St) : Option PromoCode :=
  s.cart.promoCodeId.bind (fun pcid => s.promoCodes.find? (fun pc => pc.id == pcid))

/-- `CartRepository.recalculateCartTotals` (lines 523-569):
subtotal = reduce of `item.total`; discount = percentage of subtotal or
`Math.min(discount, subtotal)`; tax = 10% of (subtotal - discount);
shipping = `subtotal > 0 ? 10 : 0`; total = subtotal - discount + tax +
shipping. -/
def recalculateCartTotals (s : St) : St :=
  let subtotal := s.cart.items.foldl (fun sum it => sum + it.total) 0
  let discount :=
    match lookupPromo s with
    | some pc =>
      if pc.isPercentage then subtotal * (pc.discount / 100)
      else min pc.discount subtotal
    | none => 0
  let taxRate : Rat := 1 / 10
  let tax := (subtotal - discount) * taxRate
  let shipping : Rat := if subtotal > 0 then 10 else 0
  let total := subtotal - discount + tax + shipping
  { s with cart := { s.cart with
      subtotal := subtotal, discount := discount, tax := tax,
      shipping := shipping, total := total } }

/-- `CartRepository.addItem` (lines 340-402): fetch price (throwing
`NotFound` for a missing product/variant), then either increment the
quantity of an existing item for the same (product, variant) key —
recomputing its `total` with the freshly fetched price but leaving its
stored `price` column untouched, as the source does — or create a new
item with the fetched price captured; finally recalculate totals.
No check on the sign of `quantity` appears in the source. -/
def addItem (s : St) (pid : String) (vid : Option String) (q : Rat) :
    St × Option CartError :=
  match fetchPrice s.products pid vid with
  | none => (s, some CartError.notFound)
  | some price =>
    match s.cart.items.find? (itemKeyMatches pid vid) with
    | some existingItem =>
      let items := s.cart.items.map (fun it =>
        if it.id == existingItem.id then
          { it with quantity := existingItem.quantity + q,
                    total := (existingItem.quantity + q) * price }
        else it)
      (recalculateCartTotals { s with cart := { s.cart with items := items } }, none)
    | none =>
      let newItem : CartItem :=
        { id := s.nextItemId, productId := pid, variantId := vid,
          quantity := q, price := price, total := q * price }
      (recalculateCartTotals
        { s with cart := { s.cart with items := s.cart.items ++ [newItem] },
                 nextItemId := s.nextItemId + 1 }, none)

/-- `CartRepository.updateItem` (lines 404-429): look up the item by id
(throwing `NotFound` when absent), set its quantity and recompute its
line total from the already-captured `price` column, then recalculate. -/
def updateItem (s : St) (cartItemId : Nat) (q : Rat) : St × Option CartError :=
  match s.cart.items.find? (fun it => it.id == cartItemId) with
  | none => (s, some CartError.notFound)
  | some cartItem =>
    let items := s.cart.items.map (fun it =>
      if it.id == cartItemId then
        { it with quantity := q, total := q * cartItem.price }
      else it)
    (recalculateCartTotals { s with cart := { s.cart with items := items } }, none)

/-- `CartRepository.removeItem` (lines 431-452): look up the item by id
(throwing `NotFound` when absent), delete it, recalculate. -/
def removeItem (s : St) (cartItemId : Nat) : St × Option CartError :=
  match s.cart.items.find? (fun it => it.id == cartItemId) with
  | none => (s, some CartError.notFound)
  | some _ =>
    let items := s.cart.items.filter (fun it => !(it.id == cartItemId))
    (recalculateCartTotals { s with cart := { s.cart with items := items } }, none)

/-- `CartRepository.clearCart` (lines 454-475): delete all items, reset
the five monetary fields to zero and disconnect the promo code.  No
recalculation is performed (none is needed). -/
def clearCart (s : St) : St × Option CartError :=
  ({ s with cart := { s.cart with
      items := [], promoCodeId := none,
      subtotal := 0, tax := 0, shipping := 0, discount := 0, total := 0 } }, none)

/-- The expiry check of `applyPromoCode`:
`promoCode.expiresAt && new Date(promoCode.expiresAt) < new Date()`. -/
def promoExpired (pc : PromoCode) (now : Nat) : Bool :=
  match pc.expiresAt with
  | some t => decide (t < now)
  | none => false

/-- `CartRepository.applyPromoCode` (lines 477-505): find the promo code
by code (throw `NotFound`), throw `CouponExpired` when expired, otherwise
connect it to the cart and recalculate.  Both throws occur before the
first write. -/
def applyPromoCode (s : St) (now : Nat) (code : String) : St × Option CartError :=
  match s.promoCodes.find? (fun pc => pc.code == code) with
  | none => (s, some CartError.notFound)
  | some promoCode =>
    if promoExpired promoCode now then (s, some CartError.couponExpired)
    else
      (recalculateCartTotals
        { s with cart := { s.cart with promoCodeId := some promoCode.id } }, none)

/-- `CartRepository.removePromoCode` (lines 507-521): disconnect the
promo code and recalculate. -/
def removePromoCode (s : St) : St × Option CartError :=
  (recalculateCartTotals { s with cart := { s.cart with promoCodeId := none } }, none)

/-- One mutating operation of the pricing engine. -/
inductive CartOp where
  | add (pid : String) (vid : Option String) (q : Rat)
  | upd (cartItemId : Nat) (q : Rat)
  | rem (cartItemId : Nat)
  | clear
  | applyPromo (now : Nat) (code : String)
  | removePromo
deriving DecidableEq, Repr

/-- Dispatch one engine operation. -/
def step (s : St) (o : CartOp) : St × Option CartError :=
  match o with
  | CartOp.add pid vid q => addItem s pid vid q
  | CartOp.upd i q => updateItem s i q
  | CartOp.rem i => removeItem s i
  | CartOp.clear => clearCart s
  | CartOp.applyPromo now code => applyPromoCode s now code
  | CartOp.removePromo => removePromoCode s

/-- Run a sequence of engine operations (a failed call leaves the state
as the source leaves the database: untouched). -/
def runOps (s : St) : List CartOp → St
  | [] => s
  | o :: rest => runOps (step s o).1 rest

/-- An external catalog price change between engine calls: the product's
price column changes, carts are untouched. -/
def setProductPrice (s : St) (pid : String) (p : Rat) : St :=
  { s with products := s.products.map (fun pr =>
      if pr.id == pid then { pr with price := p } else pr) }

/-- An event of a trace: either an engine operation or an external
catalog price change. -/
inductive TraceOp where
  | op (o : CartOp)
  | priceChange (pid : String) (p : Rat)
deriving DecidableEq, Repr

/-- Run a trace of engine operations interleaved with catalog price
changes. -/
def runTrace (s : St) : List TraceOp → St
  | [] => s
  | TraceOp.op o :: rest => runTrace (step s o).1 rest
  | TraceOp.priceChange pid p :: rest => runTrace (setProductPrice s pid p) rest

/-- The stored-totals invariant of the spec:
`total == subtotal - discount + tax + shipping`. -/
def cartInv (c : Cart) : Prop :=
  c.total = c.subtotal - c.discount + c.tax + c.shipping

instance (c : Cart) : Decidable (cartInv c) := by unfold cartInv; infer_instance

/-- Per-item consistency: the stored line total equals the captured unit
price times the quantity, and the captured unit price is the current
catalog price for the item's (product, variant) key. -/
def lineOk (products : List Product) (it : CartItem) : Prop :=
  it.total = it.price * it.quantity ∧
    fetchPrice products it.productId it.variantId = some it.price

/-- Inductive invariant for the subtotal property: the stored subtotal is
the sum of unit price times quantity over the items, every item is
consistent with the current catalog, item ids are below the id generator
and pairwise distinct. -/
def goodState (s : St) : Prop :=
  s.cart.subtotal = (s.cart.items.map (fun it => it.price * it.quantity)).sum
    ∧ (∀ it ∈ s.cart.items, lineOk s.products it)
    ∧ (∀ it ∈ s.cart.items, it.id < s.nextItemId)
    ∧ (s.cart.items.map (fun it => it.id)).Nodup

end CartModel

namespace PromoModel

/-- Coupon discount types of the promotions subgraph schema. -/
inductive DiscountType where
  | PERCENTAGE
  | FIXED_AMOUNT
  | FREE_SHIPPING
deriving DecidableEq, Repr

/-- A `Coupon` row of the promotions subgraph: value, optional
minimum-purchase threshold, optional maximum-discount cap, optional
usage limit, usage counter and active window. -/
structure Coupon where
  id : String
  code : String
  discountType : DiscountType
  discountValue : Rat
  minPurchase : Option Rat
  maxDiscount : Option Rat
  maxUses : Option Nat
  usesCount : Nat
  isActive : Bool
  startDate : Nat
  endDate : Nat
deriving DecidableEq, Repr

/-- A cart item as read by `Mutation.applyCoupon`
(`include: { items: { include: { product: true } } }`): the quantity and
the current product price. -/
structure ResolverCartItem where
  productId : String
  quantity : Rat
  productPrice : Rat
deriving DecidableEq, Repr

/-- The cart row as seen by the promotions resolvers: the stored
monetary columns plus the `discountAmount` and `couponCode` columns the
resolvers write. -/
structure ResolverCart where
  id : String
  items : List ResolverCartItem
  subtotal : Rat
  tax : Rat
  shipping : Rat
  total : Rat
  discountAmount : Rat
  couponCode : Option String
deriving DecidableEq, Repr

/-- The shared database state touched by the promotions resolvers. -/
structure PromoState where
  coupons : List Coupon
  carts : List ResolverCart
deriving DecidableEq, Repr

/-- The errors thrown by `Mutation.applyCoupon` / `Mutation.removeCoupon`,
in source order. -/
inductive ResolverError where
  | authRequired
  | couponNotFound
  | couponNotActive
  | couponLimitReached
  | cartNotFound
  | minPurchaseNotMet
deriving DecidableEq, Repr

/-- JavaScript truthiness of a nullable numeric column: null and 0 are
both falsy. -/
def truthyNum : Option Rat → Bool
  | some x => decide (x ≠ 0)
  | none => false

/-- JavaScript truthiness of a nullable integer column: null and 0 are
both falsy. -/
def truthyCount : Option Nat → Bool
  | some n => decide (n ≠ 0)
  | none => false

/-- `prisma.coupon.findUnique({ where: { code } })`. -/
def findCoupon (s : PromoState) (code : String) : Option Coupon :=
  s.coupons.find? (fun c => c.code == code)

/-- `prisma.cart.findUnique({ where: { id: cartId } })`. -/
def findCart (s : PromoState) (cartId : String) : Option ResolverCart :=
  s.carts.find? (fun c => c.id == cartId)

/-- `resolvers.ts` lines 168-171: the cart total used by `applyCoupon`,
summed from current product prices times quantities (not read from the
cart's stored subtotal column). -/
def cartTotalOf (cart : ResolverCart) : Rat :=
  cart.items.foldl (fun total it => total + it.productPrice * it.quantity) 0

/-- `resolvers.ts` lines 177-195: the discount switch.  `PERCENTAGE` is
capped at `maxDiscount` only when `maxDiscount` is truthy (set and
nonzero); `FIXED_AMOUNT` is the raw coupon value, with no cap against
the cart total; the `FREE_SHIPPING` branch is a stub yielding 0 (its
comment reads `This would be the shipping cost`). -/
def computeDiscountAmount (coupon : Coupon) (cartTotal : Rat) : Rat :=
  match coupon.discountType with
  | DiscountType.PERCENTAGE =>
    let d := cartTotal * (coupon.discountValue / 100)
    if truthyNum coupon.maxDiscount && decide (d > coupon.maxDiscount.getD 0)
    then coupon.maxDiscount.getD 0 else d
  | DiscountType.FIXED_AMOUNT => coupon.discountValue
  | DiscountType.FREE_SHIPPING => 0

/-- `Mutation.applyCoupon` (`resolvers.ts` lines 138-217): requires an
authenticated user; finds the coupon by code; rejects an inactive or
out-of-window coupon; rejects when `maxUses` is truthy and
`usesCount >= maxUses`; finds the cart; rejects when `minPurchase` is
truthy and the item total is below it; then increments the coupon's
usage counter and writes `discountAmount` and `couponCode` onto the
cart.  No other cart column is written. -/
def applyCoupon (s : PromoState) (now : Nat) (hasUser : Bool)
    (code cartId : String) : PromoState × Option ResolverError :=
  if !hasUser then (s, some ResolverError.authRequired)
  else
    match findCoupon s code with
    | none => (s, some ResolverError.couponNotFound)
    | some coupon =>
      if !coupon.isActive || decide (coupon.endDate < now)
          || decide (coupon.startDate > now) then
        (s, some ResolverError.couponNotActive)
      else if truthyCount coupon.maxUses
          && decide (coupon.usesCount ≥ coupon.maxUses.getD 0) then
        (s, some ResolverError.couponLimitReached)
      else
        match findCart s cartId with
        | none => (s, some ResolverError.cartNotFound)
        | some cart =>
          if truthyNum coupon.minPurchase
              && decide (cartTotalOf cart < coupon.minPurchase.getD 0) then
            (s, some ResolverError.minPurchaseNotMet)
          else
            let discountAmount := computeDiscountAmount coupon (cartTotalOf cart)
            ({ coupons := s.coupons.map (fun k =>
                 if k.id == coupon.id then { k with usesCount := k.usesCount + 1 }
                 else k),
               carts := s.carts.map (fun ct =>
                 if ct.id == cartId then
                   { ct with discountAmount := discountAmount,
                             couponCode := some code }
                 else ct) }, none)

/-- `Mutation.removeCoupon` (`resolvers.ts` lines 218-230): requires an
authenticated user, then writes `discountAmount := 0` and
`couponCode := null` on the cart.  It touches no coupon row. -/
def removeCoupon (s : PromoState) (hasUser : Bool) (cartId : String) :
    PromoState × Option ResolverError :=
  if !hasUser then (s, some ResolverError.authRequired)
  else
    match findCart s cartId with
    | none => (s, some ResolverError.cartNotFound)
    | some _ =>
      ({ s with carts := s.carts.map (fun ct =>
           if ct.id == cartId then
             { ct with discountAmount := 0, couponCode := none }
           else ct) }, none)

/-- Sample input: an active 10% coupon with no caps, already used 3
times. -/
def save10 : Coupon :=
  { id := "c1", code := "SAVE10", discountType := DiscountType.PERCENTAGE,
    discountValue := 10, minPurchase := none, maxDiscount := none,
    maxUses := none, usesCount := 3, isActive := true,
    startDate := 0, endDate := 100 }

/-- Sample input: a cart holding one 100-priced item whose stored totals
(subtotal 100, tax 10, shipping 10, total 120) are internally
consistent before any coupon. -/
def sampleCart : ResolverCart :=
  { id := "cart1", items := [{ productId := "p1", quantity := 1,
                               productPrice := 100 }],
    subtotal := 100, tax := 10, shipping := 10, total := 120,
    discountAmount := 0, couponCode := none }

/-- Sample input: the state holding `save10` and `sampleCart`. -/
def sampleState : PromoState :=
  { coupons := [save10], carts := [sampleCart] }

/-- Sample input: a cart that currently has coupon SAVE10 applied. -/
def appliedCart : ResolverCart :=
  { id := "cart1", items := [],
    subtotal := 100, tax := 10, shipping := 10, total := 110,
    discountAmount := 10, couponCode := some "SAVE10" }

/-- Sample input: the state holding `save10` (used 4 times) and
`appliedCart`. -/
def appliedState : PromoState :=
  { coupons := [{ save10 with usesCount := 4 }], carts := [appliedCart] }

end PromoModel

namespace CartModel

lemma cartInv_recalc (s : St) : cartInv (recalculateCartTotals s).cart := by
  simp [cartInv, recalculateCartTotals]

lemma cartInv_addItem (s : St) (pid : String) (vid : Option String) (q : Rat)
    (h : (addItem s pid vid q).2 = none) : cartInv (addItem s pid vid q).1.cart := by
  unfold addItem at h ⊢
  revert h
  split
  · intro h; exact absurd h (by simp)
  · split
    · intro _; exact cartInv_recalc _
    · intro _; exact cartInv_recalc _

lemma cartInv_updateItem (s : St) (i : Nat) (q : Rat)
    (h : (updateItem s i q).2 = none) : cartInv (updateItem s i q).1.cart := by
  unfold updateItem at h ⊢
  revert h
  split
  · intro h; exact absurd h (by simp)
  · intro _; exact cartInv_recalc _

lemma cartInv_removeItem (s : St) (i : Nat)
    (h : (removeItem s i).2 = none) : cartInv (removeItem s i).1.cart := by
  unfold removeItem at h ⊢
  revert h
  split
  · intro h; exact absurd h (by simp)
  · intro _; exact cartInv_recalc _

lemma cartInv_applyPromoCode (s : St) (now : Nat) (code : String)
    (h : (applyPromoCode s now code).2 = none) :
    cartInv (applyPromoCode s now code).1.cart := by
  unfold applyPromoCode at h ⊢
  revert h
  split
  · intro h; exact absurd h (by simp)
  · split
    · intro h; exact absurd h (by simp)
    · intro _; exact cartInv_recalc _

/-- C1: after every successful mutating operation of the pricing engine
(addItem, updateItem, removeItem, clearCart, applyPromoCode,
removePromoCode) the cart satisfies
`total = subtotal - discount + tax + shipping`, and after `clearCart`
the subtotal, discount, tax, shipping and total are all zero. -/
theorem cart_total_invariant (s : St) (o : CartOp) (h : (step s o).2 = none) :
    cartInv (step s o).1.cart ∧
      (o = CartOp.clear →
        (step s o).1.cart.subtotal = 0 ∧ (step s o).1.cart.discount = 0 ∧
        (step s o).1.cart.tax = 0 ∧ (step s o).1.cart.shipping = 0 ∧
        (step s o).1.cart.total = 0) := by
  cases o with
  | add pid vid q =>
    exact ⟨cartInv_addItem s pid vid q h, by intro hc; cases hc⟩
  | upd i q =>
    exact ⟨cartInv_updateItem s i q h, by intro hc; cases hc⟩
  | rem i =>
    exact ⟨cartInv_removeItem s i h, by intro hc; cases hc⟩
  | clear =>
    refine ⟨?_, fun _ => ?_⟩
    · simp [step, clearCart, cartInv]
    · simp [step, clearCart]
  | applyPromo now code =>
    exact ⟨cartInv_applyPromoCode s now code h, by intro hc; cases hc⟩
  | removePromo =>
    exact ⟨cartInv_recalc _, by intro hc; cases hc⟩

/-- Witness for `cart_total_invariant`: a concrete cart cleared. -/
theorem cart_total_invariant_witness :
    (step { cart := newCart, products := [], promoCodes := [], nextItemId := 0 }
        CartOp.clear).2 = none ∧
      (cartInv (step { cart := newCart, products := [], promoCodes := [], nextItemId := 0 }
          CartOp.clear).1.cart ∧
        (CartOp.clear = CartOp.clear →
          (step { cart := newCart, products := [], promoCodes := [], nextItemId := 0 }
              CartOp.clear).1.cart.subtotal = 0 ∧
          (step { cart := newCart, products := [], promoCodes := [], nextItemId := 0 }
              CartOp.clear).1.cart.discount = 0 ∧
          (step { cart := newCart, products := [], promoCodes := [], nextItemId := 0 }
              CartOp.clear).1.cart.tax = 0 ∧
          (step { cart := newCart, products := [], promoCodes := [], nextItemId := 0 }
              CartOp.clear).1.cart.shipping = 0 ∧
          (step { cart := newCart, products := [], promoCodes := [], nextItemId := 0 }
              CartOp.clear).1.cart.total = 0)) :=
  ⟨by decide,
   cart_total_invariant
     { cart := newCart, products := [], promoCodes := [], nextItemId := 0 }
     CartOp.clear (by decide)⟩

/-- C10: when `applyPromoCode` fails (unknown code, or expired code) it
throws before performing any write, so the whole state — the cart's
applied promo code, its items and all five monetary fields — is exactly
the state before the call. -/
theorem applyPromoCode_error_atomic (s : St) (now : Nat) (code : String)
    (e : CartError) (h : (applyPromoCode s now code).2 = some e) :
    (applyPromoCode s now code).1 = s := by
  unfold applyPromoCode at h ⊢
  revert h
  split
  · intro _; rfl
  · split
    · intro _; rfl
    · intro h; exact absurd h (by simp)

/-- Witness for `applyPromoCode_error_atomic`: applying an unknown code
to a concrete cart fails and leaves the state untouched. -/
theorem applyPromoCode_error_atomic_witness :
    (applyPromoCode
        { cart := newCart, products := [], promoCodes := [], nextItemId := 0 }
        5 "MISSING").2 = some CartError.notFound ∧
      (applyPromoCode
          { cart := newCart, products := [], promoCodes := [], nextItemId := 0 }
          5 "MISSING").1 =
        { cart := newCart, products := [], promoCodes := [], nextItemId := 0 } :=
  ⟨by decide,
   applyPromoCode_error_atomic
     { cart := newCart, products := [], promoCodes := [], nextItemId := 0 }
     5 "MISSING" CartError.notFound (by decide)⟩

/-- C5 (divergence): `recalculateCartTotals` charges the flat 10 fee for
every cart with positive subtotal — including every cart whose subtotal
exceeds the 100 free-shipping threshold promised by the claim and by the
comment on the very line of source (line 553 reads
`subtotal > 0 ? 10 : 0` under the comment `Free shipping over $100`).
There is no free-shipping branch at all, and no coupon type can zero the
shipping. -/
theorem recalc_shipping_flat_fee (s : St)
    (h : 100 < (recalculateCartTotals s).cart.subtotal) :
    (recalculateCartTotals s).cart.shipping = 10 := by
  have hx : (recalculateCartTotals s).cart.subtotal
      = s.cart.items.foldl (fun sum it => sum + it.total) 0 := rfl
  have hsh : (recalculateCartTotals s).cart.shipping
      = if s.cart.items.foldl (fun sum it => sum + it.total) 0 > 0
        then (10 : Rat) else 0 := rfl
  rw [hx] at h
  rw [hsh, if_pos (lt_trans (by norm_num) h)]

/-- Witness for `recalc_shipping_flat_fee`: a cart whose subtotal is 150
(strictly above the 100 threshold) is still charged shipping 10. -/
theorem recalc_shipping_flat_fee_witness :
    100 < (recalculateCartTotals
        { cart := { newCart with
            items := [{ id := 0, productId := "p1", variantId := none,
                        quantity := 1, price := 150, total := 150 }] },
          products := [], promoCodes := [], nextItemId := 1 }).cart.subtotal ∧
      (recalculateCartTotals
        { cart := { newCart with
            items := [{ id := 0, productId := "p1", variantId := none,
                        quantity := 1, price := 150, total := 150 }] },
          products := [], promoCodes := [], nextItemId := 1 }).cart.shipping = 10 :=
  ⟨by norm_num [recalculateCartTotals, lookupPromo, newCart],
   recalc_shipping_flat_fee
     { cart := { newCart with
         items := [{ id := 0, productId := "p1", variantId := none,
                     quantity := 1, price := 150, total := 150 }] },
       products := [], promoCodes := [], nextItemId := 1 }
     (by norm_num [recalculateCartTotals, lookupPromo, newCart])⟩

/-- C8 (divergence): `addItem` performs no quantity validation.  Adding
quantity -2 of an existing product to an empty cart succeeds (no
`InvalidQuantity` error anywhere in `addItem`), creates an item with
quantity -2, and drives the cart's subtotal to -20. -/
theorem addItem_accepts_nonpositive_quantity :
    (addItem
        { cart := newCart, products := [{ id := "p1", price := 10, variants := [] }],
          promoCodes := [], nextItemId := 0 } "p1" none (-2)).2 = none ∧
      ((addItem
          { cart := newCart, products := [{ id := "p1", price := 10, variants := [] }],
            promoCodes := [], nextItemId := 0 } "p1" none (-2)).1.cart.items.map
        (fun it => it.quantity)) = [(-2 : Rat)] ∧
      (addItem
          { cart := newCart, products := [{ id := "p1", price := 10, variants := [] }],
            promoCodes := [], nextItemId := 0 } "p1" none (-2)).1.cart.subtotal
        = (-20 : Rat) := by
  refine ⟨?_, ?_, ?_⟩ <;>
    norm_num [addItem, fetchPrice, itemKeyMatches, recalculateCartTotals,
      lookupPromo, newCart, List.find?]

lemma foldl_add_total (l : List CartItem) (a : Rat) :
    l.foldl (fun sum it => sum + it.total) a
      = a + (l.map (fun it => it.total)).sum := by
  induction l generalizing a with
  | nil => simp
  | cons x t ih => simp [ih, add_assoc]

lemma recalc_subtotal (s : St) :
    (recalculateCartTotals s).cart.subtotal
      = s.cart.items.foldl (fun sum it => sum + it.total) 0 := rfl

lemma recalc_items (s : St) :
    (recalculateCartTotals s).cart.items = s.cart.items := rfl

lemma recalc_products (s : St) :
    (recalculateCartTotals s).products = s.products := rfl

lemma recalc_nextItemId (s : St) :
    (recalculateCartTotals s).nextItemId = s.nextItemId := rfl

lemma goodState_recalc (s : St)
    (hline : ∀ it ∈ s.cart.items, lineOk s.products it)
    (hfresh : ∀ it ∈ s.cart.items, it.id < s.nextItemId)
    (hnd : (s.cart.items.map (fun it => it.id)).Nodup) :
    goodState (recalculateCartTotals s) := by
  refine ⟨?_, ?_, ?_, ?_⟩
  · rw [recalc_subtotal, recalc_items, foldl_add_total, zero_add]
    exact congrArg List.sum (List.map_congr_left (fun it hit => (hline it hit).1))
  · simp only [recalc_items, recalc_products]; exact hline
  · simp only [recalc_items, recalc_nextItemId]; exact hfresh
  · simp only [recalc_items]; exact hnd

lemma goodState_addItem (s : St) (pid : String) (vid : Option String) (q : Rat)
    (h : goodState s) : goodState (addItem s pid vid q).1 := by
  obtain ⟨hsub, hline, hfresh, hnd⟩ := h
  unfold addItem
  split
  · exact ⟨hsub, hline, hfresh, hnd⟩
  · rename_i price hp
    split
    · -- existing-item branch
      rename_i ex he
      have hexmem := List.mem_of_find?_eq_some he
      have hexkey := List.find?_some he
      simp only [itemKeyMatches, Bool.and_eq_true, beq_iff_eq] at hexkey
      have hexline := hline ex hexmem
      have hpex : price = ex.price := by
        have h2 := hexline.2
        rw [hexkey.1, hexkey.2, hp] at h2
        exact Option.some_inj.mp h2
      apply goodState_recalc
      · intro it hit
        rcases List.mem_map.mp hit with ⟨it0, hit0, rfl⟩
        by_cases hid : (it0.id == ex.id) = true
        · have hit0ex : it0 = ex :=
            List.inj_on_of_nodup_map hnd hit0 hexmem (beq_iff_eq.mp hid)
          subst hit0ex
          simp only [hid, if_true]
          refine ⟨?_, hexline.2⟩
          show (it0.quantity + q) * price = it0.price * (it0.quantity + q)
          rw [hpex, mul_comm]
        · simp only [hid, if_false]
          exact hline it0 hit0
      · intro it hit
        rcases List.mem_map.mp hit with ⟨it0, hit0, rfl⟩
        by_cases hid : (it0.id == ex.id) = true
        · simp only [hid, if_true]; exact hfresh it0 hit0
        · simp only [hid, if_false]; exact hfresh it0 hit0
      · rw [List.map_map]
        have hids : s.cart.items.map
            ((fun it : CartItem => it.id) ∘ (fun it =>
              if (it.id == ex.id) = true then
                { it with quantity := ex.quantity + q,
                          total := (ex.quantity + q) * price }
              else it))
            = s.cart.items.map (fun it => it.id) := by
          apply List.map_congr_left
          intro a _
          by_cases hid : (a.id == ex.id) = true <;> simp [Function.comp, hid]
        rw [hids]
        exact hnd
    · -- new-item branch
      apply goodState_recalc
      · intro it hit
        rcases List.mem_append.mp hit with h1 | h2
        · exact hline it h1
        · have h3 := List.mem_singleton.mp h2
          rw [h3]
          exact ⟨mul_comm q price, hp⟩
      · intro it hit
        rcases List.mem_append.mp hit with h1 | h2
        · exact Nat.lt_trans (hfresh it h1) (Nat.lt_succ_self _)
        · have h3 := List.mem_singleton.mp h2
          rw [h3]
          exact Nat.lt_succ_self _
      · rw [List.map_append]
        simp only [List.map_cons, List.map_nil]
        rw [List.nodup_append]
        refine ⟨hnd, List.nodup_singleton _, ?_⟩
        intro x hx hx1
        rcases List.mem_map.mp hx with ⟨it, hit, rfl⟩
        have h4 := List.mem_singleton.mp hx1
        have h5 := hfresh it hit
        rw [h4] at h5
        exact lt_irrefl _ h5

lemma goodState_updateItem (s : St) (i : Nat) (q : Rat)
    (h : goodState s) : goodState (updateItem s i q).1 := by
  obtain ⟨hsub, hline, hfresh, hnd⟩ := h
  unfold updateItem
  split
  · exact ⟨hsub, hline, hfresh, hnd⟩
  · rename_i cartItem he
    have hexmem := List.mem_of_find?_eq_some he
    have hexkey : cartItem.id = i := by
      have h2 := List.find?_some he
      simp only [beq_iff_eq] at h2
      exact h2
    apply goodState_recalc
    · intro it hit
      rcases List.mem_map.mp hit with ⟨it0, hit0, rfl⟩
      by_cases hid : (it0.id == i) = true
      · have hit0ex : it0 = cartItem :=
          List.inj_on_of_nodup_map hnd hit0 hexmem
            (by rw [beq_iff_eq.mp hid, hexkey])
        simp only [hid, if_true]
        exact ⟨by rw [hit0ex, mul_comm], (hline it0 hit0).2⟩
      · simp only [hid, if_false]
        exact hline it0 hit0
    · intro it hit
      rcases List.mem_map.mp hit with ⟨it0, hit0, rfl⟩
      by_cases hid : (it0.id == i) = true
      · simp only [hid, if_true]; exact hfresh it0 hit0
      · simp only [hid, if_false]; exact hfresh it0 hit0
    · rw [List.map_map]
      have hids : s.cart.items.map
          ((fun it : CartItem => it.id) ∘ (fun it =>
            if (it.id == i) = true then
              { it with quantity := q, total := q * cartItem.price }
            else it))
          = s.cart.items.map (fun it => it.id) := by
        apply List.map_congr_left
        intro a _
        by_cases hid : (a.id == i) = true <;> simp [Function.comp, hid]
      rw [hids]
      exact hnd

lemma goodState_removeItem (s : St) (i : Nat)
    (h : goodState s) : goodState (removeItem s i).1 := by
  obtain ⟨hsub, hline, hfresh, hnd⟩ := h
  unfold removeItem
  split
  · exact ⟨hsub, hline, hfresh, hnd⟩
  · apply goodState_recalc
    · intro it hit
      exact hline it (List.mem_of_mem_filter hit)
    · intro it hit
      exact hfresh it (List.mem_of_mem_filter hit)
    · exact ((List.filter_sublist _).map _).nodup hnd

lemma goodState_clearCart (s : St) (_h : goodState s) :
    goodState (clearCart s).1 := by
  refine ⟨rfl, ?_, ?_, ?_⟩ <;> simp [clearCart]

lemma goodState_applyPromoCode (s : St) (now : Nat) (code : String)
    (h : goodState s) : goodState (applyPromoCode s now code).1 := by
  obtain ⟨hsub, hline, hfresh, hnd⟩ := h
  unfold applyPromoCode
  split
  · exact ⟨hsub, hline, hfresh, hnd⟩
  · split
    · exact ⟨hsub, hline, hfresh, hnd⟩
    · exact goodState_recalc _ hline hfresh hnd

lemma goodState_removePromoCode (s : St) (h : goodState s) :
    goodState (removePromoCode s).1 :=
  goodState_recalc _ h.2.1 h.2.2.1 h.2.2.2

lemma goodState_step (s : St) (o : CartOp) (h : goodState s) :
    goodState (step s o).1 := by
  cases o with
  | add pid vid q => exact goodState_addItem s pid vid q h
  | upd i q => exact goodState_updateItem s i q h
  | rem i => exact goodState_removeItem s i h
  | clear => exact goodState_clearCart s h
  | applyPromo now code => exact goodState_applyPromoCode s now code h
  | removePromo => exact goodState_removePromoCode s h

lemma goodState_runOps (s : St) (ops : List CartOp) (h : goodState s) :
    goodState (runOps s ops) := by
  induction ops generalizing s with
  | nil => exact h
  | cons o rest ih => exact ih _ (goodState_step s o h)

/-- C2 (amended): for every sequence of engine operations during which
the catalog prices do not change, after each call the stored subtotal
equals the sum over the items of captured unit price times quantity
(started from a consistent state). -/
theorem subtotal_tracks_items (s : St) (ops : List CartOp) (h : goodState s) :
    (runOps s ops).cart.subtotal
      = ((runOps s ops).cart.items.map (fun it => it.price * it.quantity)).sum :=
  (goodState_runOps s ops h).1

/-- Witness for `subtotal_tracks_items`: an add, a quantity update and a
removal starting from a fresh cart. -/
theorem subtotal_tracks_items_witness :
    goodState { cart := newCart,
                products := [{ id := "p1", price := 10, variants := [] }],
                promoCodes := [], nextItemId := 0 } ∧
      (runOps { cart := newCart,
                products := [{ id := "p1", price := 10, variants := [] }],
                promoCodes := [], nextItemId := 0 }
          [CartOp.add "p1" none 2, CartOp.upd 0 5, CartOp.rem 0]).cart.subtotal
        = ((runOps { cart := newCart,
                     products := [{ id := "p1", price := 10, variants := [] }],
                     promoCodes := [], nextItemId := 0 }
              [CartOp.add "p1" none 2, CartOp.upd 0 5,
               CartOp.rem 0]).cart.items.map
            (fun it => it.price * it.quantity)).sum :=
  ⟨by simp [goodState, newCart],
   subtotal_tracks_items _ _ (by simp [goodState, newCart])⟩

/-- C2 (counterexample): with a catalog price change between two adds of
the same product, the stored subtotal (40) no longer equals the sum of
captured unit price times quantity (10 · 2 = 20): the second `addItem`
recomputes the line total at the new catalog price 20 but leaves the
captured `price` column at 10. -/
theorem subtotal_stale_price_counterexample :
    (runTrace { cart := newCart,
                products := [{ id := "p1", price := 10, variants := [] }],
                promoCodes := [], nextItemId := 0 }
        [TraceOp.op (CartOp.add "p1" none 1), TraceOp.priceChange "p1" 20,
         TraceOp.op (CartOp.add "p1" none 1)]).cart.subtotal = 40 ∧
      ((runTrace { cart := newCart,
                   products := [{ id := "p1", price := 10, variants := [] }],
                   promoCodes := [], nextItemId := 0 }
          [TraceOp.op (CartOp.add "p1" none 1), TraceOp.priceChange "p1" 20,
           TraceOp.op (CartOp.add "p1" none 1)]).cart.items.map
        (fun it => it.price * it.quantity)).sum = 20 ∧
      (40 : Rat) ≠ 20 := by
  refine ⟨?_, ?_, by norm_num⟩ <;>
    norm_num [runTrace, step, addItem, fetchPrice, itemKeyMatches,
      setProductPrice, recalculateCartTotals, lookupPromo, newCart, List.find?]

lemma addItem_eq_of_new (s : St) (pid : String) (vid : Option String) (q price : Rat)
    (hp : fetchPrice s.products pid vid = some price)
    (he : s.cart.items.find? (itemKeyMatches pid vid) = none) :
    addItem s pid vid q
      = (recalculateCartTotals
          { s with
            cart := { s.cart with items := s.cart.items ++
              [{ id := s.nextItemId, productId := pid, variantId := vid,
                 quantity := q, price := price, total := q * price }] },
            nextItemId := s.nextItemId + 1 }, none) := by
  unfold addItem
  rw [hp, he]

lemma addItem_eq_of_found (s : St) (pid : String) (vid : Option String)
    (q price : Rat) (ex : CartItem)
    (hp : fetchPrice s.products pid vid = some price)
    (he : s.cart.items.find? (itemKeyMatches pid vid) = some ex) :
    addItem s pid vid q
      = (recalculateCartTotals
          { s with
            cart := { s.cart with items := s.cart.items.map (fun it =>
              if (it.id == ex.id) = true then
                { it with quantity := ex.quantity + q,
                          total := (ex.quantity + q) * price }
              else it) } }, none) := by
  unfold addItem
  rw [hp, he]

/-- C3: adding the same (product, variant) twice from a cart that does
not yet contain it yields exactly one item for that key, with quantity
q1 + q2, and grows the item list by exactly one row over the two calls
(starting from a state whose item ids are below the id generator, with
the product present in the catalog). -/
theorem addItem_merges_duplicate (s : St) (pid : String) (vid : Option String)
    (q1 q2 price : Rat) (hq1 : 0 < q1) (hq2 : 0 < q2)
    (hfresh : ∀ it ∈ s.cart.items, it.id < s.nextItemId)
    (habsent : s.cart.items.find? (itemKeyMatches pid vid) = none)
    (hp : fetchPrice s.products pid vid = some price) :
    (addItem s pid vid q1).2 = none ∧
      (addItem (addItem s pid vid q1).1 pid vid q2).2 = none ∧
      ((addItem (addItem s pid vid q1).1 pid vid q2).1.cart.items.filter
          (itemKeyMatches pid vid)).map (fun it => it.quantity) = [q1 + q2] ∧
      (addItem (addItem s pid vid q1).1 pid vid q2).1.cart.items.length
        = s.cart.items.length + 1 := by
  have h1 := addItem_eq_of_new s pid vid q1 price hp habsent
  have hitems1 : (addItem s pid vid q1).1.cart.items
      = s.cart.items ++
        [{ id := s.nextItemId, productId := pid, variantId := vid,
           quantity := q1, price := price, total := q1 * price }] := by
    rw [h1]; rfl
  have hp2 : fetchPrice (addItem s pid vid q1).1.products pid vid = some price := by
    rw [h1]; exact hp
  have hfind2 : (addItem s pid vid q1).1.cart.items.find? (itemKeyMatches pid vid)
      = some { id := s.nextItemId, productId := pid, variantId := vid,
               quantity := q1, price := price, total := q1 * price } := by
    rw [hitems1, List.find?_append, habsent, Option.none_or]
    rw [List.find?_cons_of_pos]
    simp [itemKeyMatches]
  have h2 := addItem_eq_of_found (addItem s pid vid q1).1 pid vid q2 price _ hp2 hfind2
  have hmap : (addItem s pid vid q1).1.cart.items.map (fun it =>
      if (it.id == ({ id := s.nextItemId, productId := pid, variantId := vid,
                      quantity := q1, price := price,
                      total := q1 * price } : CartItem).id) = true then
        { it with
            quantity := ({ id := s.nextItemId, productId := pid, variantId := vid,
                           quantity := q1, price := price,
                           total := q1 * price } : CartItem).quantity + q2,
            total := (({ id := s.nextItemId, productId := pid, variantId := vid,
                         quantity := q1, price := price,
                         total := q1 * price } : CartItem).quantity + q2) * price }
      else it)
      = s.cart.items ++
        [{ id := s.nextItemId, productId := pid, variantId := vid,
           quantity := q1 + q2, price := price, total := (q1 + q2) * price }] := by
    rw [hitems1, List.map_append]
    congr 1
    · have hfix : ∀ a ∈ s.cart.items,
          (if (a.id == ({ id := s.nextItemId, productId := pid, variantId := vid,
                          quantity := q1, price := price,
                          total := q1 * price } : CartItem).id) = true then
            { a with quantity := q1 + q2, total := (q1 + q2) * price }
          else a) = (fun b : CartItem => b) a := by
        intro a ha
        have hne : a.id ≠ s.nextItemId := Nat.ne_of_lt (hfresh a ha)
        simp [hne]
      calc s.cart.items.map _ = s.cart.items.map (fun b : CartItem => b) :=
            List.map_congr_left hfix
        _ = s.cart.items := List.map_id' _
    · simp
  have hitems2 : (addItem (addItem s pid vid q1).1 pid vid q2).1.cart.items
      = s.cart.items ++
        [{ id := s.nextItemId, productId := pid, variantId := vid,
           quantity := q1 + q2, price := price, total := (q1 + q2) * price }] := by
    rw [h2]
    exact hmap
  have hfilternil : s.cart.items.filter (itemKeyMatches pid vid) = [] :=
    List.filter_eq_nil_iff.mpr (List.find?_eq_none.mp habsent)
  refine ⟨by rw [h1], by rw [h2], ?_, ?_⟩
  · rw [hitems2, List.filter_append, hfilternil]
    simp [itemKeyMatches]
  · rw [hitems2]
    simp

/-- Witness for `addItem_merges_duplicate`: two adds of product p1 with
quantities 2 and 3 onto an empty cart. -/
theorem addItem_merges_duplicate_witness :
    (0 : Rat) < 2 ∧ (0 : Rat) < 3 ∧
      (∀ it ∈ ({ cart := newCart,
                 products := [{ id := "p1", price := 10, variants := [] }],
                 promoCodes := [], nextItemId := 0 } : St).cart.items,
        it.id < 0) ∧
      (({ cart := newCart,
          products := [{ id := "p1", price := 10, variants := [] }],
          promoCodes := [], nextItemId := 0 } : St).cart.items.find?
        (itemKeyMatches "p1" none) = none) ∧
      (((addItem (addItem
            { cart := newCart,
              products := [{ id := "p1", price := 10, variants := [] }],
              promoCodes := [], nextItemId := 0 } "p1" none 2).1
          "p1" none 3).1.cart.items.filter
            (itemKeyMatches "p1" none)).map (fun it => it.quantity)
        = [2 + 3]) :=
  ⟨by norm_num, by norm_num, by simp [newCart], by simp [newCart],
   (addItem_merges_duplicate
      { cart := newCart, products := [{ id := "p1", price := 10, variants := [] }],
        promoCodes := [], nextItemId := 0 } "p1" none 2 3 10
      (by norm_num) (by norm_num) (by simp [newCart]) (by simp [newCart])
      (by simp [fetchPrice, List.find?])).2.2.1⟩

end CartModel

namespace PromoModel

lemma find?_map_of_pred_eq {α : Type} (p : α → Bool) (f : α → α) (l : List α)
    (hpf : ∀ a, p (f a) = p a) :
    (l.map f).find? p = (l.find? p).map f := by
  induction l with
  | nil => rfl
  | cons a t ih =>
    by_cases hpa : p a = true
    · rw [List.map_cons, List.find?_cons_of_pos _ (by rw [hpf]; exact hpa),
        List.find?_cons_of_pos _ hpa]
      rfl
    · rw [List.map_cons, List.find?_cons_of_neg _ (by rw [hpf]; exact hpa),
        List.find?_cons_of_neg _ hpa]
      exact ih

/-- C4 (amended): in `Mutation.applyCoupon`, a PERCENTAGE discount never
exceeds `maxDiscount` when `maxDiscount` is set and nonzero; the
min(value, subtotal) cap on a fixed discount exists only in
`CartRepository.recalculateCartTotals`, whose non-percentage discount
never exceeds the subtotal. -/
theorem coupon_discount_caps :
    (∀ (c : Coupon) (t m : Rat), c.discountType = DiscountType.PERCENTAGE →
      c.maxDiscount = some m → m ≠ 0 → computeDiscountAmount c t ≤ m)
    ∧ (∀ (s : CartModel.St) (pc : CartModel.PromoCode),
        CartModel.lookupPromo s = some pc → pc.isPercentage = false →
        (CartModel.recalculateCartTotals s).cart.discount
          ≤ (CartModel.recalculateCartTotals s).cart.subtotal) := by
  constructor
  · intro c t m hty hm hm0
    have hcd : computeDiscountAmount c t
        = if truthyNum c.maxDiscount
            && decide (t * (c.discountValue / 100) > c.maxDiscount.getD 0)
          then c.maxDiscount.getD 0 else t * (c.discountValue / 100) := by
      unfold computeDiscountAmount
      rw [hty]
    rw [hcd, hm]
    simp only [truthyNum, Option.getD_some]
    split
    · exact le_refl m
    · rename_i hcond
      simp only [Bool.and_eq_true, decide_eq_true_eq, not_and, ne_eq] at hcond
      exact le_of_not_lt (fun hlt => hcond hm0 hlt)
  · intro s pc hpc hper
    have h1 : (CartModel.recalculateCartTotals s).cart.discount
        = match CartModel.lookupPromo s with
          | some pc =>
            if pc.isPercentage
            then (s.cart.items.foldl (fun sum it => sum + it.total) 0)
              * (pc.discount / 100)
            else min pc.discount
              (s.cart.items.foldl (fun sum it => sum + it.total) 0)
          | none => 0 := rfl
    rw [CartModel.recalc_subtotal, h1, hpc]
    simp only [hper, Bool.false_eq_true, if_false]
    exact min_le_right _ _

/-- Witness for `coupon_discount_caps`: a 20% coupon capped at 15 on a
200 cart, and a fixed promo code of 50 on a 30 cart. -/
theorem coupon_discount_caps_witness :
    computeDiscountAmount
      { id := "c1", code := "PCT20", discountType := DiscountType.PERCENTAGE,
        discountValue := 20, minPurchase := none, maxDiscount := some 15,
        maxUses := none, usesCount := 0, isActive := true,
        startDate := 0, endDate := 100 } 200 ≤ 15 ∧
    (CartModel.recalculateCartTotals
      { cart := { CartModel.newCart with
          items := [{ id := 0, productId := "p1", variantId := none,
                      quantity := 1, price := 30, total := 30 }],
          promoCodeId := some "pc1" },
        products := [],
        promoCodes := [{ id := "pc1", code := "FIX50", discount := 50,
                         isPercentage := false, expiresAt := none }],
        nextItemId := 1 }).cart.discount
      ≤ (CartModel.recalculateCartTotals
      { cart := { CartModel.newCart with
          items := [{ id := 0, productId := "p1", variantId := none,
                      quantity := 1, price := 30, total := 30 }],
          promoCodeId := some "pc1" },
        products := [],
        promoCodes := [{ id := "pc1", code := "FIX50", discount := 50,
                         isPercentage := false, expiresAt := none }],
        nextItemId := 1 }).cart.subtotal :=
  ⟨coupon_discount_caps.1
     { id := "c1", code := "PCT20", discountType := DiscountType.PERCENTAGE,
       discountValue := 20, minPurchase := none, maxDiscount := some 15,
       maxUses := none, usesCount := 0, isActive := true,
       startDate := 0, endDate := 100 } 200 15 rfl rfl (by norm_num),
   coupon_discount_caps.2
     { cart := { CartModel.newCart with
         items := [{ id := 0, productId := "p1", variantId := none,
                     quantity := 1, price := 30, total := 30 }],
         promoCodeId := some "pc1" },
       products := [],
       promoCodes := [{ id := "pc1", code := "FIX50", discount := 50,
                        isPercentage := false, expiresAt := none }],
       nextItemId := 1 }
     { id := "pc1", code := "FIX50", discount := 50,
       isPercentage := false, expiresAt := none }
     (by simp [CartModel.lookupPromo, CartModel.newCart, List.find?]) rfl⟩

/-- C4 (counterexample): a FIXED_AMOUNT coupon of 50 applied through
`Mutation.applyCoupon` to a cart whose item total is 30 succeeds and
stores `discountAmount = 50`, which exceeds the subtotal 30 — the
claimed min(value, subtotal) cap does not exist on this path. -/
theorem fixed_discount_exceeds_subtotal :
    (applyCoupon
        { coupons := [{ id := "c1", code := "FIXED50",
                        discountType := DiscountType.FIXED_AMOUNT,
                        discountValue := 50, minPurchase := none,
                        maxDiscount := none, maxUses := none, usesCount := 0,
                        isActive := true, startDate := 0, endDate := 100 }],
          carts := [{ id := "cart1",
                      items := [{ productId := "p1", quantity := 1,
                                  productPrice := 30 }],
                      subtotal := 30, tax := 3, shipping := 10, total := 43,
                      discountAmount := 0, couponCode := none }] }
        10 true "FIXED50" "cart1").2 = none ∧
      ((findCart (applyCoupon
          { coupons := [{ id := "c1", code := "FIXED50",
                          discountType := DiscountType.FIXED_AMOUNT,
                          discountValue := 50, minPurchase := none,
                          maxDiscount := none, maxUses := none, usesCount := 0,
                          isActive := true, startDate := 0, endDate := 100 }],
            carts := [{ id := "cart1",
                        items := [{ productId := "p1", quantity := 1,
                                    productPrice := 30 }],
                        subtotal := 30, tax := 3, shipping := 10, total := 43,
                        discountAmount := 0, couponCode := none }] }
          10 true "FIXED50" "cart1").1 "cart1").map
        (fun ct => ct.discountAmount)) = some 50 ∧
      cartTotalOf { id := "cart1",
                    items := [{ productId := "p1", quantity := 1,
                                productPrice := 30 }],
                    subtotal := 30, tax := 3, shipping := 10, total := 43,
                    discountAmount := 0, couponCode := none } = 30 ∧
      ¬ ((50 : Rat) ≤ 30) := by
  refine ⟨?_, ?_, ?_, by norm_num⟩ <;>
    norm_num [applyCoupon, findCoupon, findCart, cartTotalOf,
      computeDiscountAmount, truthyNum, truthyCount, List.find?]

end PromoModel

namespace PromoModel

/-- C6 (amended): when the caller is authenticated, the coupon is found,
active and inside its date window, and it carries a nonzero usage limit
already reached (`usesCount >= maxUses`), `applyCoupon` returns
`CouponLimitReached` and performs no write at all (a zero `maxUses` is
treated as unlimited because 0 is falsy in JavaScript). -/
theorem applyCoupon_limit_reached (s : PromoState) (now : Nat)
    (code cartId : String) (c : Coupon) (m : Nat)
    (hfind : findCoupon s code = some c)
    (hactive : c.isActive = true)
    (hend : ¬ c.endDate < now)
    (hstart : ¬ c.startDate > now)
    (hmax : c.maxUses = some m)
    (hm0 : m ≠ 0)
    (hcnt : m ≤ c.usesCount) :
    applyCoupon s now true code cartId
      = (s, some ResolverError.couponLimitReached) := by
  unfold applyCoupon
  rw [hfind]
  simp [truthyCount, hactive, hmax, hend, hstart, hm0, hcnt]

/-- Witness for `applyCoupon_limit_reached`: a coupon with `maxUses = 1`
and `usesCount = 1`. -/
theorem applyCoupon_limit_reached_witness :
    findCoupon
        { coupons := [{ id := "c1", code := "ONCE",
                        discountType := DiscountType.PERCENTAGE,
                        discountValue := 10, minPurchase := none,
                        maxDiscount := none, maxUses := some 1, usesCount := 1,
                        isActive := true, startDate := 0, endDate := 100 }],
          carts := [] } "ONCE"
      = some { id := "c1", code := "ONCE",
               discountType := DiscountType.PERCENTAGE,
               discountValue := 10, minPurchase := none,
               maxDiscount := none, maxUses := some 1, usesCount := 1,
               isActive := true, startDate := 0, endDate := 100 } ∧
    applyCoupon
        { coupons := [{ id := "c1", code := "ONCE",
                        discountType := DiscountType.PERCENTAGE,
                        discountValue := 10, minPurchase := none,
                        maxDiscount := none, maxUses := some 1, usesCount := 1,
                        isActive := true, startDate := 0, endDate := 100 }],
          carts := [] } 10 true "ONCE" "cart1"
      = ({ coupons := [{ id := "c1", code := "ONCE",
                         discountType := DiscountType.PERCENTAGE,
                         discountValue := 10, minPurchase := none,
                         maxDiscount := none, maxUses := some 1, usesCount := 1,
                         isActive := true, startDate := 0, endDate := 100 }],
           carts := [] }, some ResolverError.couponLimitReached) :=
  ⟨by simp [findCoupon, List.find?],
   applyCoupon_limit_reached _ 10 "ONCE" "cart1"
     { id := "c1", code := "ONCE",
       discountType := DiscountType.PERCENTAGE,
       discountValue := 10, minPurchase := none,
       maxDiscount := none, maxUses := some 1, usesCount := 1,
       isActive := true, startDate := 0, endDate := 100 } 1
     (by simp [findCoupon, List.find?]) rfl (by norm_num) (by norm_num) rfl
     (by norm_num) (by norm_num)⟩

/-- C6 (counterexample): a coupon whose usage limit is set to 0 with
usage count 7 ≥ 0 is accepted, not rejected: `coupon.maxUses &&` is
false for 0, so the limit check is skipped, the call succeeds and even
consumes a redemption (usesCount becomes 8). -/
theorem zero_usage_limit_ignored :
    (applyCoupon
        { coupons := [{ id := "c1", code := "ZERO",
                        discountType := DiscountType.PERCENTAGE,
                        discountValue := 10, minPurchase := none,
                        maxDiscount := none, maxUses := some 0, usesCount := 7,
                        isActive := true, startDate := 0, endDate := 100 }],
          carts := [{ id := "cart1",
                      items := [{ productId := "p1", quantity := 1,
                                  productPrice := 30 }],
                      subtotal := 30, tax := 3, shipping := 10, total := 43,
                      discountAmount := 0, couponCode := none }] }
        10 true "ZERO" "cart1").2 = none ∧
      ((findCoupon (applyCoupon
          { coupons := [{ id := "c1", code := "ZERO",
                          discountType := DiscountType.PERCENTAGE,
                          discountValue := 10, minPurchase := none,
                          maxDiscount := none, maxUses := some 0, usesCount := 7,
                          isActive := true, startDate := 0, endDate := 100 }],
            carts := [{ id := "cart1",
                        items := [{ productId := "p1", quantity := 1,
                                    productPrice := 30 }],
                        subtotal := 30, tax := 3, shipping := 10, total := 43,
                        discountAmount := 0, couponCode := none }] }
          10 true "ZERO" "cart1").1 "ZERO").map (fun k => k.usesCount))
        = some 8 := by
  constructor <;>
    norm_num [applyCoupon, findCoupon, findCart, cartTotalOf,
      computeDiscountAmount, truthyNum, truthyCount, List.find?]

end PromoModel

namespace PromoModel

/-- C7 (amended): when `Mutation.applyCoupon` succeeds it increments the
matched coupon's usage counter by exactly 1 and writes the coupon code
and the computed discount amount onto the cart; every other cart column
(items, subtotal, tax, shipping, total) keeps its previous value — the
resolver triggers no totals recalculation (recalculation exists only on
the `CartRepository.applyPromoCode` path, which touches no usage
counter). -/
theorem applyCoupon_success_effects (s : PromoState) (now : Nat)
    (code cartId : String) (c : Coupon) (cart : ResolverCart)
    (hfind : findCoupon s code = some c)
    (hcart : findCart s cartId = some cart)
    (hok : (applyCoupon s now true code cartId).2 = none) :
    (applyCoupon s now true code cartId).1.coupons
      = s.coupons.map (fun k =>
          if k.id == c.id then { k with usesCount := k.usesCount + 1 } else k)
    ∧ findCart (applyCoupon s now true code cartId).1 cartId
      = some { cart with
          discountAmount := computeDiscountAmount c (cartTotalOf cart),
          couponCode := some code } := by
  have hcart' : s.carts.find? (fun ct => ct.id == cartId) = some cart := hcart
  have hcartid : (cart.id == cartId) = true := by
    have h2 := List.find?_some hcart'
    exact h2
  unfold applyCoupon at hok ⊢
  rw [hfind, hcart] at hok ⊢
  simp only [Bool.not_true, Bool.false_eq_true, if_false] at hok ⊢
  revert hok
  split
  · intro hok; exact absurd hok (by simp)
  · split
    · intro hok; exact absurd hok (by simp)
    · split
      · intro hok; exact absurd hok (by simp)
      · intro _
        refine ⟨rfl, ?_⟩
        show ((s.carts.map (fun ct =>
            if ct.id == cartId then
              { ct with
                  discountAmount := computeDiscountAmount c (cartTotalOf cart),
                  couponCode := some code }
            else ct)).find? (fun ct => ct.id == cartId))
          = some { cart with
              discountAmount := computeDiscountAmount c (cartTotalOf cart),
              couponCode := some code }
        rw [find?_map_of_pred_eq _ _ _
          (fun a => by by_cases h : (a.id == cartId) = true <;> simp [h])]
        rw [hcart']
        have hcartid2 : cart.id = cartId := by
          have h3 := hcartid
          simp only [beq_iff_eq] at h3
          exact h3
        simp [hcartid2]

end PromoModel

namespace PromoModel

/-- Witness for `applyCoupon_success_effects`: the 10% coupon `save10`
applied to `sampleCart`. -/
theorem applyCoupon_success_effects_witness :
    (applyCoupon sampleState 10 true "SAVE10" "cart1").2 = none ∧
      ((applyCoupon sampleState 10 true "SAVE10" "cart1").1.coupons
        = sampleState.coupons.map (fun k =>
            if k.id == save10.id then { k with usesCount := k.usesCount + 1 }
            else k)
        ∧ findCart (applyCoupon sampleState 10 true "SAVE10" "cart1").1 "cart1"
          = some { sampleCart with
              discountAmount := computeDiscountAmount save10
                (cartTotalOf sampleCart),
              couponCode := some "SAVE10" }) :=
  ⟨by norm_num [applyCoupon, findCoupon, findCart, cartTotalOf,
      computeDiscountAmount, truthyNum, truthyCount, List.find?,
      sampleState, sampleCart, save10],
   applyCoupon_success_effects sampleState 10 "SAVE10" "cart1" save10 sampleCart
     (by simp [findCoupon, List.find?, sampleState, save10])
     (by simp [findCart, List.find?, sampleState, sampleCart])
     (by norm_num [applyCoupon, findCoupon, findCart, cartTotalOf,
        computeDiscountAmount, truthyNum, truthyCount, List.find?,
        sampleState, sampleCart, save10])⟩

/-- C7 (counterexample to the claim as stated): a successful
`applyCoupon` stores `discountAmount = 10` but leaves the cart's stored
total at 120 (and its subtotal, tax and shipping untouched): the claimed
totals recomputation never happens, and after the call
`total ≠ subtotal - discountAmount + tax + shipping` (120 ≠ 110). -/
theorem applyCoupon_does_not_recompute_totals :
    (applyCoupon sampleState 10 true "SAVE10" "cart1").2 = none ∧
      ((findCart (applyCoupon sampleState 10 true "SAVE10" "cart1").1
          "cart1").map (fun ct => ct.discountAmount)) = some 10 ∧
      ((findCart (applyCoupon sampleState 10 true "SAVE10" "cart1").1
          "cart1").map (fun ct => ct.total)) = some 120 ∧
      ((findCart (applyCoupon sampleState 10 true "SAVE10" "cart1").1
          "cart1").map (fun ct => decide (ct.total
            = ct.subtotal - ct.discountAmount + ct.tax + ct.shipping)))
        = some false := by
  refine ⟨?_, ?_, ?_, ?_⟩ <;>
    norm_num [applyCoupon, findCoupon, findCart, cartTotalOf,
      computeDiscountAmount, truthyNum, truthyCount, List.find?,
      sampleState, sampleCart, save10]

/-- C9: `removeCoupon` on an authenticated session, for an existing cart
with an applied coupon, succeeds, clears the cart's coupon code, zeroes
its discount amount, and leaves every coupon row — in particular every
usage counter — untouched. -/
theorem removeCoupon_clears_only_cart (s : PromoState) (cartId : String)
    (cart : ResolverCart)
    (hcart : findCart s cartId = some cart)
    (happlied : cart.couponCode.isSome = true) :
    (removeCoupon s true cartId).2 = none
    ∧ (removeCoupon s true cartId).1.coupons = s.coupons
    ∧ findCart (removeCoupon s true cartId).1 cartId
      = some { cart with discountAmount := 0, couponCode := none } := by
  have hcart' : s.carts.find? (fun ct => ct.id == cartId) = some cart := hcart
  have hcartid : cart.id = cartId := by
    have h2 := List.find?_some hcart'
    simp only [beq_iff_eq] at h2
    exact h2
  unfold removeCoupon
  rw [hcart]
  simp only [Bool.not_true, Bool.false_eq_true, if_false]
  refine ⟨by trivial, by trivial, ?_⟩
  show ((s.carts.map (fun ct =>
      if ct.id == cartId then { ct with discountAmount := 0, couponCode := none }
      else ct)).find? (fun ct => ct.id == cartId))
    = some { cart with discountAmount := 0, couponCode := none }
  rw [find?_map_of_pred_eq _ _ _
    (fun a => by by_cases h : (a.id == cartId) = true <;> simp [h])]
  rw [hcart']
  simp [hcartid]

/-- Witness for `removeCoupon_clears_only_cart`: removing the coupon of
`appliedCart`; the coupon table (usage counter 4) is unchanged. -/
theorem removeCoupon_clears_only_cart_witness :
    findCart appliedState "cart1" = some appliedCart ∧
      ((removeCoupon appliedState true "cart1").2 = none
        ∧ (removeCoupon appliedState true "cart1").1.coupons
          = appliedState.coupons
        ∧ findCart (removeCoupon appliedState true "cart1").1 "cart1"
          = some { appliedCart with discountAmount := 0, couponCode := none }) :=
  ⟨by simp [findCart, List.find?, appliedState, appliedCart],
   removeCoupon_clears_only_cart appliedState "cart1" appliedCart
     (by simp [findCart, List.find?, appliedState, appliedCart]) rfl⟩

end PromoModel
